import Mathlib

/-!
Verification development for the bank-statement line-parsing and
reconciliation engine of the quickbooksupload repository.

The TypeScript sources are shallowly embedded as pure Lean functions:

* each JavaScript regular-expression literal used by the field extractors is
  embedded as a dedicated matcher over `List Char` that reproduces its
  leftmost-first backtracking semantics on the character classes involved;
* `src/utils/transactionParser.ts` is embedded in namespace `TP`;
* the parser variant of `src/unnamed/part_003` is embedded in namespace `P3`;
* `src/utils/customerMappingService.ts` is embedded in namespace `CMS`;
* the database service of `src/unnamed/part_001` is embedded in namespace `DB`
  as explicit state passing over a record-store state, with network failures
  injected through an environment value;
* the customer-mapping enrichment block of
  `src/components/AppLayout.tsx` (handleDataSubmit) is embedded in
  namespace `App`.
-/

/-- Character class of the JavaScript whitespace escape used by the source
regexes, restricted to the ASCII whitespace characters (the statement lines
handled by the parsers are ASCII). -/
def isJsWs (c : Char) : Bool :=
  c = ' ' || c = '\t' || c = '\n' || c = '\r' || c = '\x0b' || c = '\x0c'

/-- JavaScript word character, for word-boundary tests: letters, digits and
underscore. -/
def isWordChar (c : Char) : Bool :=
  c.isAlphanum || c = '_'

/-- Characters of the string after removing leading and trailing whitespace,
modelling the JavaScript trim method. -/
def trimChars (cs : List Char) : List Char :=
  ((cs.dropWhile isJsWs).reverse.dropWhile isJsWs).reverse

/-- Model of the JavaScript trim method on strings. -/
def jsTrim (s : String) : String :=
  String.mk (trimChars s.toList)

/-- Replace every maximal run of whitespace by a single space: the flag
records whether the previous character was whitespace. -/
def collapseWsAux : Bool → List Char → List Char
  | _, [] => []
  | prevWs, c :: cs =>
    if isJsWs c then
      if prevWs then collapseWsAux true cs
      else ' ' :: collapseWsAux true cs
    else c :: collapseWsAux false cs

/-- Model of replacing every whitespace run by a single space, as done by the
date-normalisation step of the NMB extractor. -/
def collapseWs (cs : List Char) : List Char :=
  collapseWsAux false cs

/-- Leftmost-match search: run the positional matcher at every suffix of the
input, left to right, and return the first success.  This is how a JavaScript
regex without anchors scans the subject string. -/
def scanFirst (f : List Char → Option α) : List Char → Option α
  | [] => f []
  | c :: cs =>
    match f (c :: cs) with
    | some r => some r
    | none => scanFirst f cs

/-- Substring test: true when the needle occurs contiguously in the haystack,
modelling the JavaScript includes method. -/
def hasSub (needle : List Char) : List Char → Bool
  | [] => needle.isEmpty
  | c :: cs => needle.isPrefixOf (c :: cs) || hasSub needle cs

/-- Case-insensitive substring test on the lower-cased line, modelling
calls of the shape line.toLowerCase().includes(word) in the source. -/
def lowerHas (needle : String) (cs : List Char) : Bool :=
  hasSub needle.toList (cs.map Char.toLower)

/-- Model of the JavaScript split method with the newline separator: the
accumulator holds the reversed characters of the current piece, and n
separators always produce n plus one pieces, empty pieces included. -/
def splitNlAux : List Char → List Char → List String
  | [], acc => [String.mk acc.reverse]
  | c :: cs, acc =>
    if c = '\n' then String.mk acc.reverse :: splitNlAux cs []
    else splitNlAux cs (c :: acc)

/-- Split a string at every newline character. -/
def splitNl (s : String) : List String :=
  splitNlAux s.toList []

/-- The line splitting shared by both batch parsers: split the raw input on
the newline character and discard lines that are blank after trimming. -/
def splitLines (rawData : String) : List String :=
  (splitNl rawData).filter (fun line => jsTrim line != "")

/-! ### Matchers for the NMB extractor's regex literals -/

/-- One attempt of the NMB date pattern at the current position with a
day of exactly n digits; the whitespace runs are maximal, which agrees with
the greedy semantics because a shorter run would leave the next required
token facing a whitespace character. -/
def dateDayTry (n : Nat) (cs : List Char) : Option (List Char) :=
  let day := cs.take n
  if day.length == n && day.all Char.isDigit then
    let p1 := (cs.drop n).span isJsWs
    if p1.1.isEmpty then none
    else
      let mon := p1.2.take 3
      if mon.length == 3 && mon.all Char.isAlpha then
        let p2 := (p1.2.drop 3).span isJsWs
        if p2.1.isEmpty then none
        else
          let yr := p2.2.take 4
          if yr.length == 4 && yr.all Char.isDigit then
            some (day ++ p1.1 ++ mon ++ p2.1 ++ yr)
          else none
      else none
  else none

/-- Positional matcher for the NMB date pattern: one or two digits (greedy,
so two digits are tried first), whitespace, three letters, whitespace, four
digits. -/
def dateAt (cs : List Char) : Option (List Char) :=
  match dateDayTry 2 cs with
  | some r => some r
  | none => dateDayTry 1 cs

/-- Positional matcher for the case-insensitive reference pattern: the
literal word Description, whitespace, then a captured run of digits. -/
def descAt (cs : List Char) : Option (List Char) :=
  if (cs.take 11).map Char.toLower == "description".toList then
    let p := (cs.drop 11).span isJsWs
    if p.1.isEmpty then none
    else
      let ds := p.2.takeWhile Char.isDigit
      if ds.isEmpty then none else some ds
  else none

/-- Positional matcher for the user-id pattern: a captured run of digits
between two at-sign delimiters. -/
def userIdAt : List Char → Option (List Char)
  | '@' :: rest =>
    let ds := rest.takeWhile Char.isDigit
    if ds.isEmpty then none
    else
      match rest.drop ds.length with
      | '@' :: _ => some ds
      | _ => none
  | _ => none

/-- Character class of the counterpart-name capture: letters or whitespace
(the source class is case-insensitive). -/
def isNameClass (c : Char) : Bool :=
  c.isAlpha || isJsWs c

/-- Lazy capture of the counterpart-name pattern: the shortest nonempty run
of name characters after which the input is exhausted or a tab follows. -/
def lazyNameCap : List Char → Option (List Char)
  | [] => none
  | c :: rest =>
    if isNameClass c then
      if rest.isEmpty || rest.head? == some '\t' then some [c]
      else
        match lazyNameCap rest with
        | some cap => some (c :: cap)
        | none => none
    else none

/-- Backtracking over the greedy whitespace prefix of the name pattern: the
longest whitespace prefix is tried first, then shorter ones. -/
def userNameWs (rest : List Char) : Nat → Option (List Char)
  | 0 => lazyNameCap rest
  | k + 1 =>
    match lazyNameCap (rest.drop (k + 1)) with
    | some cap => some cap
    | none => userNameWs rest k

/-- Positional matcher for the counterpart-name pattern: the arrow marker,
optional whitespace, then a lazily captured run of letters and whitespace
terminated by a tab or the end of the line. -/
def userNameAt : List Char → Option (List Char)
  | '=' :: '>' :: rest => userNameWs rest (rest.takeWhile isJsWs).length
  | _ => none

/-- Comma-grouped continuation of the numeric token: zero or more groups of
a comma followed by exactly three digits, consumed greedily.  Dropping a
group cannot rescue a failing continuation because the position would then
face a comma, so the greedy maximal consumption is faithful. -/
def commaGroups : List Char → List Char × List Char
  | ',' :: a :: b :: c :: rest =>
    if a.isDigit && b.isDigit && c.isDigit then
      let p := commaGroups rest
      (',' :: a :: b :: c :: p.1, p.2)
    else ([], ',' :: a :: b :: c :: rest)
  | cs => ([], cs)

/-- The numeric token shared by the three amount patterns: digits, optional
comma-grouped continuation, optional dot followed by exactly two digits.
Returns the token and the rest of the input. -/
def numToken (cs : List Char) : Option (List Char × List Char) :=
  let ds := cs.takeWhile Char.isDigit
  if ds.isEmpty then none
  else
    let p := commaGroups (cs.drop ds.length)
    match p.2 with
    | '.' :: a :: b :: r2 =>
      if a.isDigit && b.isDigit then some (ds ++ p.1 ++ ['.', a, b], r2)
      else some (ds ++ p.1, p.2)
    | _ => some (ds ++ p.1, p.2)

/-- Positional matcher for the first amount pattern: a tab, the captured
numeric token, one or more tabs, then the currency word (case-insensitive)
or the end of the line. -/
def amountAt : List Char → Option (List Char)
  | '\t' :: rest =>
    match numToken rest with
    | some (num, r1) =>
      let tabs := r1.takeWhile (· == '\t')
      if tabs.isEmpty then none
      else
        let r2 := r1.drop tabs.length
        if r2.isEmpty || (r2.take 3).map Char.toLower == "tzs".toList then some num
        else none
    | none => none
  | _ => none

/-- Positional matcher for the second amount pattern: a tab, the captured
numeric token, then optional whitespace and tabs before the currency word
(case-insensitive).  The three greedy whitespace repetitions of the source
pattern collapse to skipping the maximal whitespace run, because the
currency word starts with a non-whitespace character. -/
def altAmountAt : List Char → Option (List Char)
  | '\t' :: rest =>
    match numToken rest with
    | some (num, r1) =>
      if ((r1.dropWhile isJsWs).take 3).map Char.toLower == "tzs".toList then some num
      else none
    | none => none
  | _ => none

/-- Positional matcher for the third amount pattern: the captured numeric
token, optional whitespace, then a tab or the case-sensitive currency word.
Backtracking through the whitespace run succeeds exactly when the run
contains a tab, or the word follows the whole run. -/
def depositAt (cs : List Char) : Option (List Char) :=
  match numToken cs with
  | some (num, r1) =>
    let ws := r1.takeWhile isJsWs
    if ws.contains '\t' || (r1.drop ws.length).take 3 == "TZS".toList then some num
    else none
  | none => none

/-- Positional matcher for the product-name pattern: three digits, optional
whitespace, a hyphen, optional whitespace, then a captured nonempty run of
non-hyphen characters that must be followed by a hyphen. -/
def productNameAt (cs : List Char) : Option (List Char) :=
  let d := cs.take 3
  if d.length == 3 && d.all Char.isDigit then
    match (cs.drop 3).dropWhile isJsWs with
    | '-' :: r2 =>
      let r3 := r2.dropWhile isJsWs
      let cap := r3.takeWhile (· != '-')
      if cap.isEmpty then none
      else
        match r3.drop cap.length with
        | '-' :: _ => some cap
        | _ => none
    | _ => none
  else none

/-! ### Matchers for the CRDB extractor's regex literals -/

/-- Positional matcher for the CRDB date pattern: two digits, a dot, two
digits, a dot, four digits. -/
def crdbDateAt : List Char → Option (List Char)
  | a :: b :: '.' :: c :: d :: '.' :: e :: f :: g :: h :: _ =>
    if a.isDigit && b.isDigit && c.isDigit && d.isDigit &&
       e.isDigit && f.isDigit && g.isDigit && h.isDigit then
      some [a, b, '.', c, d, '.', e, f, g, h]
    else none
  | _ => none

/-- Positional matcher for one CRDB amount: a nonempty run of digits and
commas followed by a dot and exactly two digits.  Returns the match and the
input remaining after it, as needed by the global-flag iteration. -/
def crdbAmountAt (cs : List Char) : Option (List Char × List Char) :=
  let run := cs.takeWhile (fun c => c.isDigit || c == ',')
  if run.isEmpty then none
  else
    match cs.drop run.length with
    | '.' :: a :: b :: rest =>
      if a.isDigit && b.isDigit then some (run ++ ['.', a, b], rest)
      else none
    | _ => none

/-- Fueled iteration of the global amount regex: after each match the scan
resumes right after the matched text, otherwise it advances one character.
Every match consumes at least one character, so fuel equal to the length of
the input never runs out. -/
def crdbAllAmountsAux : Nat → List Char → List String
  | 0, _ => []
  | _, [] => []
  | fuel + 1, c :: cs =>
    match crdbAmountAt (c :: cs) with
    | some (m, rest) => String.mk m :: crdbAllAmountsAux fuel rest
    | none => crdbAllAmountsAux fuel cs

/-- All matches of the CRDB amount regex in the line, in left-to-right
order, modelling matchAll with the global flag. -/
def crdbAllAmounts (cs : List Char) : List String :=
  crdbAllAmountsAux cs.length cs

/-- Positional matcher for the CRDB account pattern: a colon, a run of ten
to fourteen digits, then a whitespace character.  A digit run longer than
fourteen cannot match because every shorter greedy attempt would face a
digit where whitespace is required. -/
def accountAt : List Char → Option (List Char)
  | ':' :: rest =>
    let ds := rest.takeWhile Char.isDigit
    if 10 ≤ ds.length ∧ ds.length ≤ 14 then
      match (rest.drop ds.length).head? with
      | some c => if isJsWs c then some ds else none
      | none => none
    else none
  | _ => none

/-- Positional matcher for the CRDB reference pattern: the literal REF
marker, a colon, then a captured nonempty run of alphanumerics. -/
def refAt : List Char → Option (List Char)
  | 'R' :: 'E' :: 'F' :: ':' :: rest =>
    let xs := rest.takeWhile Char.isAlphanum
    if xs.isEmpty then none else some xs
  | _ => none

/-- Positional matcher for the CRDB client-name pattern: a colon, a captured
nonempty run of letters and whitespace, a second colon, then a lookahead of
at least ten digits. -/
def crdbNameAt : List Char → Option (List Char)
  | ':' :: rest =>
    let cap := rest.takeWhile isNameClass
    if cap.isEmpty then none
    else
      match rest.drop cap.length with
      | ':' :: r2 =>
        if (r2.take 10).length == 10 && (r2.take 10).all Char.isDigit then some cap
        else none
      | _ => none
  | _ => none

/-- Positional matcher for the member-code pattern of the customer-mapping
service: a word boundary, the letters MC (case-insensitive), three digits,
three letters, then a word boundary.  The previous character is supplied by
the scanner so both boundaries can be tested. -/
def memberIdAt (prev : Option Char) : List Char → Option (List Char)
  | m :: c :: d1 :: d2 :: d3 :: l1 :: l2 :: l3 :: rest =>
    if (match prev with
        | some p => !isWordChar p
        | none => true) &&
       (m == 'M' || m == 'm') && (c == 'C' || c == 'c') &&
       d1.isDigit && d2.isDigit && d3.isDigit &&
       l1.isAlpha && l2.isAlpha && l3.isAlpha &&
       (match rest.head? with
        | some n => !isWordChar n
        | none => true) then
      some ([m, c, d1, d2, d3, l1, l2, l3].map Char.toUpper)
    else none
  | _ => none

/-- Leftmost scan for the member-code pattern, carrying the previous
character for the word-boundary test. -/
def scanMemberId : Option Char → List Char → Option (List Char)
  | _, [] => none
  | prev, c :: cs =>
    match memberIdAt prev (c :: cs) with
    | some r => some r
    | none => scanMemberId (some c) cs

/-- The two statement layouts handled by the engine. -/
inductive Bank
  | NMB
  | CRDB
deriving DecidableEq

namespace TP

/-- The ParsedTransaction record of src/utils/transactionParser.ts.  The
optional errorMessage field is an Option. -/
structure ParsedTransaction where
  paymentDate : String
  customer : String
  paymentMethod : String
  depositToAccountName : String
  invoiceNo : String
  journalNo : String
  amount : String
  referenceMemo : String
  countryCode : String
  exchangeRate : String
  rawLine : String
  isValid : Bool
  errorMessage : Option String
deriving DecidableEq

/-- The ParseResult record of src/utils/transactionParser.ts. -/
structure ParseResult where
  successful : List ParsedTransaction
  failed : List ParsedTransaction
  totalLines : Nat
  successCount : Nat
  failCount : Nat
  bankType : Bank
deriving DecidableEq

/-- The createEmptyTransaction helper of src/utils/transactionParser.ts. -/
def createEmptyTransaction (line : String) (errorMessage : Option String) :
    ParsedTransaction :=
  { paymentDate := "", customer := "", paymentMethod := ""
  , depositToAccountName := "", invoiceNo := "", journalNo := ""
  , amount := "", referenceMemo := "", countryCode := "", exchangeRate := ""
  , rawLine := line, isValid := false, errorMessage := errorMessage }

/-- The payment-method classification chain of parseTransactionLine:
case-insensitive keyword search with Cash as the default. -/
def paymentMethodOf (cs : List Char) : String :=
  if lowerHas "transfer" cs then "Transfer"
  else if lowerHas "mobile" cs then "Mobile Banking"
  else if lowerHas "atm" cs then "ATM"
  else if lowerHas "cheque" cs then "Cheque"
  else "Cash"

/-- The parseTransactionLine function of src/utils/transactionParser.ts.
The fault argument models an exception raised inside the try block: some
message enters the catch branch of the source, none runs the extraction
rules, which are total. -/
def parseTransactionLineWith (fault : Option String) (line : String) :
    ParsedTransaction :=
  let trimmedLine := jsTrim line
  if trimmedLine == "" then
    { paymentDate := "", customer := "", paymentMethod := ""
    , depositToAccountName := "", invoiceNo := "", journalNo := ""
    , amount := "", referenceMemo := "", countryCode := "", exchangeRate := ""
    , rawLine := line, isValid := false, errorMessage := some "Empty line" }
  else
    match fault with
    | some m =>
      { paymentDate := "", customer := "", paymentMethod := ""
      , depositToAccountName := "", invoiceNo := "", journalNo := ""
      , amount := "", referenceMemo := "", countryCode := "", exchangeRate := ""
      , rawLine := trimmedLine, isValid := false
      , errorMessage := some ("Parse error: " ++ m) }
    | none =>
      let cs := trimmedLine.toList
      let paymentDate :=
        match scanFirst dateAt cs with
        | some d => jsTrim (String.mk (collapseWs d))
        | none => ""
      let invoiceNo :=
        match scanFirst descAt cs with
        | some d => String.mk d
        | none => ""
      let userId0 :=
        match scanFirst userIdAt cs with
        | some d => String.mk d
        | none => ""
      let userName :=
        match scanFirst userNameAt cs with
        | some n => jsTrim (String.mk n)
        | none => ""
      let userId := if userId0 == "" && userName != "" then userName else userId0
      let amount0 :=
        match scanFirst amountAt cs with
        | some a => String.mk a
        | none => ""
      let amount1 :=
        if amount0 == "" then
          match scanFirst altAmountAt cs with
          | some a => String.mk a
          | none => ""
        else amount0
      let amount :=
        if amount1 == "" then
          match scanFirst depositAt cs with
          | some a => String.mk a
          | none => ""
        else amount1
      let depositToAccountName :=
        match scanFirst productNameAt cs with
        | some p => jsTrim (String.mk p)
        | none => "NMB Collection AC"
      let isValid := invoiceNo != "" || amount != "" || paymentDate != ""
      { paymentDate := paymentDate
      , customer := userName
      , paymentMethod := paymentMethodOf cs
      , depositToAccountName := depositToAccountName
      , invoiceNo := invoiceNo
      , journalNo := ""
      , amount := amount
      , referenceMemo := if userId != "" then userId else invoiceNo
      , countryCode := ""
      , exchangeRate := ""
      , rawLine := trimmedLine
      , isValid := isValid
      , errorMessage :=
          if isValid then none else some "Could not extract required fields" }

/-- parseTransactionLine as called by the rest of the system: no extraction
rule faults. -/
def parseTransactionLine (line : String) : ParsedTransaction :=
  parseTransactionLineWith none line

/-- The amount-selection logic of parseCRDBTransactionLine, exactly as the
nested conditionals of the source: second-to-last of three or more, last of
two, the single one, otherwise empty. -/
def selectCRDBAmount (allAmounts : List String) : String :=
  if allAmounts.length ≥ 2 then
    if allAmounts.length ≥ 3 then allAmounts.getD (allAmounts.length - 2) ""
    else allAmounts.getD (allAmounts.length - 1) ""
  else if allAmounts.length == 1 then allAmounts.getD 0 ""
  else ""

/-- The parseCRDBTransactionLine function of src/utils/transactionParser.ts,
with the same fault injection as the NMB variant. -/
def parseCRDBTransactionLineWith (fault : Option String) (line : String) :
    ParsedTransaction :=
  let trimmedLine := jsTrim line
  if trimmedLine == "" then createEmptyTransaction line (some "Empty line")
  else
    match fault with
    | some m => createEmptyTransaction line (some ("Parse error: " ++ m))
    | none =>
      let cs := trimmedLine.toList
      let paymentDate :=
        match scanFirst crdbDateAt cs with
        | some d => String.mk (d.map fun c => if c == '.' then '/' else c)
        | none => ""
      let amount := selectCRDBAmount (crdbAllAmounts cs)
      let accountNumber :=
        match scanFirst accountAt cs with
        | some d => String.mk d
        | none => ""
      let invoiceNo :=
        match scanFirst refAt cs with
        | some d => String.mk d
        | none => ""
      let customer :=
        match scanFirst crdbNameAt cs with
        | some n => jsTrim (String.mk n)
        | none => ""
      let isValid := amount != "" || paymentDate != ""
      { paymentDate := paymentDate
      , customer := customer
      , paymentMethod := "Transfer"
      , depositToAccountName := "CRDB Collection AC"
      , invoiceNo := invoiceNo
      , journalNo := ""
      , amount := amount
      , referenceMemo := if accountNumber != "" then accountNumber else invoiceNo
      , countryCode := ""
      , exchangeRate := ""
      , rawLine := trimmedLine
      , isValid := isValid
      , errorMessage :=
          if isValid then none
          else some "Could not extract required fields from CRDB line" }

/-- parseCRDBTransactionLine as called by the rest of the system. -/
def parseCRDBTransactionLine (line : String) : ParsedTransaction :=
  parseCRDBTransactionLineWith none line

end TP

namespace P3

/-- The ParsedTransaction record of the parser variant in
src/unnamed/part_003: the richer schema with explicit refId and userId
fields that the database service of src/unnamed/part_001 persists. -/
structure ParsedTransaction where
  clientName : String
  memberId : String
  refId : String
  userId : String
  emailAddress : String
  productType : String
  productName : String
  accountNumber : String
  amount : String
  type : String
  principal : String
  interest : String
  charges : String
  chargeName : String
  transactionDate : String
  operationType : String
  transactionMode : String
  transactionReferenceNumber : String
  receiptNumber : String
  chequeNumber : String
  comment : String
  rawLine : String
  isValid : Bool
  errorMessage : Option String
  nationalId : Option String
deriving DecidableEq

/-- The ParseResult record of src/unnamed/part_003. -/
structure ParseResult where
  successful : List ParsedTransaction
  failed : List ParsedTransaction
  totalLines : Nat
  successCount : Nat
  failCount : Nat
  bankType : Bank
deriving DecidableEq

/-- The createEmptyTransaction helper of src/unnamed/part_003. -/
def createEmptyTransaction (line : String) (errorMessage : Option String) :
    ParsedTransaction :=
  { clientName := "", memberId := "", refId := "", userId := ""
  , emailAddress := "", productType := "", productName := ""
  , accountNumber := "", amount := "", type := "", principal := ""
  , interest := "", charges := "", chargeName := "", transactionDate := ""
  , operationType := "", transactionMode := "", transactionReferenceNumber := ""
  , receiptNumber := "", chequeNumber := "", comment := "", rawLine := line
  , isValid := false, errorMessage := errorMessage, nationalId := some "" }

/-- The product-type classification chain of part_003's
parseTransactionLine. -/
def productTypeOf (cs : List Char) : String :=
  if lowerHas "cash deposit" cs then "Cash Deposit"
  else if lowerHas "transfer" cs then "Transfer"
  else if lowerHas "withdrawal" cs then "Withdrawal"
  else if lowerHas "payment" cs then "Payment"
  else "Cash Deposit"

/-- The operation-type classification chain of part_003's
parseTransactionLine. -/
def operationTypeOf (cs : List Char) : String :=
  if lowerHas "agency banking" cs then "Agency Banking"
  else if lowerHas "mobile" cs then "Mobile Banking"
  else if lowerHas "atm" cs then "ATM"
  else if lowerHas "branch" cs then "Branch"
  else "Agency Banking"

/-- The credit-or-debit classification of part_003's
parseTransactionLine. -/
def typeOf (cs : List Char) : String :=
  if lowerHas "withdrawal" cs || lowerHas "debit" cs || lowerHas "payment" cs
  then "Debit" else "Credit"

/-- The parseTransactionLine function of src/unnamed/part_003: the same
extraction rules as the TP variant, filling the richer record. -/
def parseTransactionLine (line : String) : ParsedTransaction :=
  let trimmedLine := jsTrim line
  if trimmedLine == "" then
    { clientName := "", memberId := "", refId := "", userId := ""
    , emailAddress := "", productType := "", productName := ""
    , accountNumber := "", amount := "", type := "", principal := ""
    , interest := "", charges := "", chargeName := "", transactionDate := ""
    , operationType := "", transactionMode := ""
    , transactionReferenceNumber := "", receiptNumber := ""
    , chequeNumber := "", comment := "", rawLine := line
    , isValid := false, errorMessage := some "Empty line", nationalId := none }
  else
    let cs := trimmedLine.toList
    let transactionDate :=
      match scanFirst dateAt cs with
      | some d => jsTrim (String.mk (collapseWs d))
      | none => ""
    let refId :=
      match scanFirst descAt cs with
      | some d => String.mk d
      | none => ""
    let userId0 :=
      match scanFirst userIdAt cs with
      | some d => String.mk d
      | none => ""
    let userName :=
      match scanFirst userNameAt cs with
      | some n => jsTrim (String.mk n)
      | none => ""
    let userId := if userId0 == "" && userName != "" then userName else userId0
    let amount0 :=
      match scanFirst amountAt cs with
      | some a => String.mk a
      | none => ""
    let amount1 :=
      if amount0 == "" then
        match scanFirst altAmountAt cs with
        | some a => String.mk a
        | none => ""
      else amount0
    let amount :=
      if amount1 == "" then
        match scanFirst depositAt cs with
        | some a => String.mk a
        | none => ""
      else amount1
    let productName :=
      match scanFirst productNameAt cs with
      | some p => jsTrim (String.mk p)
      | none => "NMB Banking"
    let isValid := refId != "" || amount != "" || transactionDate != ""
    { clientName := ""
    , memberId := ""
    , refId := refId
    , userId := userId
    , emailAddress := ""
    , productType := productTypeOf cs
    , productName := productName
    , accountNumber := ""
    , amount := amount
    , type := typeOf cs
    , principal := ""
    , interest := ""
    , charges := ""
    , chargeName := ""
    , transactionDate := transactionDate
    , operationType := operationTypeOf cs
    , transactionMode := ""
    , transactionReferenceNumber := ""
    , receiptNumber := ""
    , chequeNumber := ""
    , comment := ""
    , rawLine := trimmedLine
    , isValid := isValid
    , errorMessage :=
        if isValid then none else some "Could not extract required fields"
    , nationalId := some "" }

/-- The parseCRDBTransactionLine function of src/unnamed/part_003. -/
def parseCRDBTransactionLine (line : String) : ParsedTransaction :=
  let trimmedLine := jsTrim line
  if trimmedLine == "" then createEmptyTransaction line (some "Empty line")
  else
    let cs := trimmedLine.toList
    let transactionDate :=
      match scanFirst crdbDateAt cs with
      | some d => String.mk (d.map fun c => if c == '.' then '-' else c)
      | none => ""
    let amount := TP.selectCRDBAmount (crdbAllAmounts cs)
    let accountNumber :=
      match scanFirst accountAt cs with
      | some d => String.mk d
      | none => ""
    let refId :=
      match scanFirst refAt cs with
      | some d => String.mk d
      | none => ""
    let possibleClientName :=
      match scanFirst crdbNameAt cs with
      | some n => jsTrim (String.mk n)
      | none => ""
    let isValid := amount != "" || transactionDate != ""
    { clientName := possibleClientName
    , memberId := ""
    , refId := refId
    , userId := accountNumber
    , emailAddress := ""
    , productType := "Transfer"
    , productName := "CRDB Transaction"
    , accountNumber := accountNumber
    , amount := amount
    , type := "Credit"
    , principal := ""
    , interest := ""
    , charges := ""
    , chargeName := ""
    , transactionDate := transactionDate
    , operationType := "Digital Banking"
    , transactionMode := "Digital"
    , transactionReferenceNumber := refId
    , receiptNumber := ""
    , chequeNumber := ""
    , comment := trimmedLine
    , rawLine := trimmedLine
    , isValid := isValid
    , errorMessage :=
        if isValid then none
        else some "Could not extract required fields from CRDB line"
    , nationalId := some "" }

/-- The loop body of parseTransactions in src/unnamed/part_003: dispatch
the line on the bank selector and push the record onto the successful or
failed accumulator. -/
def parseStep (bankType : Bank)
    (acc : List ParsedTransaction × List ParsedTransaction)
    (line : String) : List ParsedTransaction × List ParsedTransaction :=
  let parsed :=
    if bankType = Bank.CRDB then parseCRDBTransactionLine line
    else parseTransactionLine line
  if parsed.isValid then (acc.1 ++ [parsed], acc.2)
  else if jsTrim line != "" then (acc.1, acc.2 ++ [parsed])
  else acc

/-- The parseTransactions function of src/unnamed/part_003: split on line
breaks, drop blank lines, dispatch on the bank selector and partition by
validity. -/
def parseTransactions (rawData : String) (bankType : Bank) : ParseResult :=
  let lines := splitLines rawData
  let p := lines.foldl (parseStep bankType) ([], [])
  { successful := p.1
  , failed := p.2
  , totalLines := lines.length
  , successCount := p.1.length
  , failCount := p.2.length
  , bankType := bankType }

end P3

namespace CMS

/-- The CustomerMapping record of src/utils/customerMappingService.ts, the
spreadsheet-backed mapping consumed by TP.parseTransactions. -/
structure CustomerMapping where
  memberId : String
  customerName : String
  phoneNumber : String
  transactionNumber : String
deriving DecidableEq

/-- The extractMemberIdFromDescription function of
src/utils/customerMappingService.ts: leftmost case-insensitive match of the
member-code shape, normalised to upper case; empty when absent. -/
def extractMemberIdFromDescription (description : String) : String :=
  match scanMemberId none description.toList with
  | some s => String.mk s
  | none => ""

/-- The findCustomerByMemberId function of
src/utils/customerMappingService.ts: first mapping whose member id equals
the code, returning its customer name, or empty. -/
def findCustomerByMemberId (memberId : String)
    (mappings : List CustomerMapping) : String :=
  match mappings.find? (fun m => m.memberId == memberId) with
  | some m => m.customerName
  | none => ""

end CMS

namespace TP

/-- The loop body of parseTransactions in src/utils/transactionParser.ts:
dispatch the line on the bank selector, then, for a valid record with a
nonempty mapping set, enrich the customer field from the member code
embedded in the raw line. -/
def processLine (bankType : Bank) (customerMappings : List CMS.CustomerMapping)
    (line : String) : ParsedTransaction :=
  let parsed :=
    if bankType = Bank.CRDB then parseCRDBTransactionLine line
    else parseTransactionLine line
  if parsed.isValid && customerMappings.length > 0 then
    let memberId := CMS.extractMemberIdFromDescription parsed.rawLine
    if memberId != "" then
      let customerName := CMS.findCustomerByMemberId memberId customerMappings
      if customerName != "" then { parsed with customer := customerName }
      else parsed
    else parsed
  else parsed

/-- The partitioning step of the parseTransactions loop: a valid record is
pushed onto the successful accumulator, an invalid record of a nonblank
line onto the failed one. -/
def parseStep (bankType : Bank) (customerMappings : List CMS.CustomerMapping)
    (acc : List ParsedTransaction × List ParsedTransaction)
    (line : String) : List ParsedTransaction × List ParsedTransaction :=
  let parsed := processLine bankType customerMappings line
  if parsed.isValid then (acc.1 ++ [parsed], acc.2)
  else if jsTrim line != "" then (acc.1, acc.2 ++ [parsed])
  else acc

/-- The parseTransactions function of src/utils/transactionParser.ts: split
the raw input on line breaks, drop blank lines, run the loop body on every
remaining line and partition the results by validity. -/
def parseTransactions (rawData : String) (bankType : Bank)
    (customerMappings : List CMS.CustomerMapping) : ParseResult :=
  let lines := splitLines rawData
  let p := lines.foldl (parseStep bankType customerMappings) ([], [])
  { successful := p.1
  , failed := p.2
  , totalLines := lines.length
  , successCount := p.1.length
  , failCount := p.2.length
  , bankType := bankType }

end TP

namespace App

/-- The CustomerMapping row of the database service
(src/unnamed/part_001): nullable columns are Options. -/
structure CustomerMapping where
  id : String
  member_id : String
  ref_id : Option String
  customer_name : Option String
  email : Option String
  account_number : Option String
  phone_number : Option String
  loan_product : Option String
  created_at : String
deriving DecidableEq

/-- JavaScript truthiness of a nullable string column: neither null nor
empty. -/
def truthy : Option String → Bool
  | some s => s != ""
  | none => false

/-- JavaScript or-else on a nullable string with a string fallback, as in
mapping.email or t.emailAddress. -/
def orElseStr (a : Option String) (b : String) : String :=
  match a with
  | some s => if s != "" then s else b
  | none => b

/-- The mapping predicate of handleDataSubmit in
src/components/AppLayout.tsx: a single mapping matches when its member id
equals the record's user id, or its reference id equals the record's
reference id, or its account number equals either; each key is first tested
for truthiness. -/
def mappingMatches (t : P3.ParsedTransaction) (m : CustomerMapping) : Bool :=
  (m.member_id != "" && m.member_id == t.userId) ||
  (truthy m.ref_id && m.ref_id == some t.refId) ||
  (truthy m.account_number &&
    (m.account_number == some t.userId || m.account_number == some t.refId))

/-- The record overlay applied by handleDataSubmit when a mapping is
found. -/
def applyMapping (m : CustomerMapping) (t : P3.ParsedTransaction) :
    P3.ParsedTransaction :=
  { t with
    clientName := (m.customer_name.getD "")
  , memberId := m.member_id
  , emailAddress := orElseStr m.email t.emailAddress
  , accountNumber :=
      orElseStr m.account_number
        (if t.accountNumber != "" then t.accountNumber
         else if m.member_id == t.userId then t.userId else "")
  , productName := orElseStr m.loan_product t.productName
  , comment :=
      match m.customer_name with
      | some n => if n != "" then "Mapped to " ++ n else t.comment
      | none => t.comment }

/-- Enrichment of one successful record by handleDataSubmit: the first
mapping in list order satisfying the predicate is applied, otherwise the
record is returned unchanged. -/
def enrichOne (customerMappings : List CustomerMapping)
    (t : P3.ParsedTransaction) : P3.ParsedTransaction :=
  match customerMappings.find? (mappingMatches t) with
  | some m => applyMapping m t
  | none => t

/-- The customer-mapping block of handleDataSubmit: with a nonempty mapping
set every successful record is enriched, otherwise the list is left
alone. -/
def enrichTransactions (customerMappings : List CustomerMapping)
    (successful : List P3.ParsedTransaction) : List P3.ParsedTransaction :=
  if customerMappings.length > 0 then successful.map (enrichOne customerMappings)
  else successful

end App

namespace DB

/-- One row of the transaction_batches table, as inserted by
saveBatchToDatabase in src/unnamed/part_001.  Row ids are modelled as
consecutive naturals handed out by the store. -/
structure BatchRow where
  id : Nat
  session_id : String
  batch_name : String
  total_lines : Nat
  success_count : Nat
  fail_count : Nat
  total_amount : Rat
deriving DecidableEq

/-- One row of the parsed_transactions table, with exactly the columns
written by saveBatchToDatabase in src/unnamed/part_001. -/
structure StoredRow where
  batch_id : Nat
  ref_id : String
  user_id : String
  email_address : String
  product_type : String
  product_name : String
  account_number : String
  amount : String
  transaction_type : String
  principal : String
  interest : String
  charges : String
  charge_name : String
  transaction_date : String
  operation_type : String
  transaction_mode : String
  transaction_ref_no : String
  receipt_no : String
  cheque_no : String
  comment : String
  raw_line : String
  is_valid : Bool
  error_message : Option String
deriving DecidableEq

/-- The record store: the two tables used by the service and the next
fresh batch id. -/
structure DBState where
  batches : List BatchRow
  transactions : List StoredRow
  nextBatchId : Nat
deriving DecidableEq

/-- Environment of one saveBatchToDatabase call: the browser session id,
the default batch name built from the clock, and the injected outcome of
each network call (some message means that call fails).  Chunked calls are
indexed by their ordinal within the loop that issues them. -/
structure DBEnv where
  sessionId : String
  defaultBatchName : String
  checkChunkError : Nat → Option String
  batchInsertError : Option String
  txChunkError : Nat → Option String

/-- Digits of a decimal literal as a natural number. -/
def digitsToNat (ds : List Char) : Nat :=
  ds.foldl (fun n c => 10 * n + (c.toNat - 48)) 0

/-- Model of the JavaScript parseFloat call on the comma-stripped amount
strings produced by the extractors: optional leading whitespace and sign,
then an integer part and an optional fraction, as an exact rational (the
extracted amounts carry no exponent and at most two fraction digits, so no
rounding concerns arise in the properties proved here).  none models
NaN. -/
def jsParseFloat (s : String) : Option Rat :=
  let cs := s.toList.dropWhile isJsWs
  let signed : Int × List Char :=
    match cs with
    | '-' :: r => (-1, r)
    | '+' :: r => (1, r)
    | _ => (1, cs)
  let ip := signed.2.takeWhile Char.isDigit
  let r1 := signed.2.drop ip.length
  let fp :=
    match r1 with
    | '.' :: r => r.takeWhile Char.isDigit
    | _ => []
  if ip.isEmpty && fp.isEmpty then none
  else
    some (signed.1 *
      ((digitsToNat ip : Rat) + (digitsToNat fp : Rat) / ((10 : Rat) ^ fp.length)))

/-- The per-record amount contribution of the batch total:
parseFloat(t.amount.replace(/,/g, '')) with zero for an unparseable
amount. -/
def parseAmountOrZero (s : String) : Rat :=
  (jsParseFloat (String.mk (s.toList.filter (· != ',')))).getD 0

/-- The per-format dedup key read from a parsed record by
checkExistingTransactions and by the duplicate filter of
saveBatchToDatabase: the user id for NMB, the reference id for CRDB. -/
def dedupKey (bankType : Bank) (t : P3.ParsedTransaction) : String :=
  match bankType with
  | Bank.NMB => t.userId
  | Bank.CRDB => t.refId

/-- The per-format dedup column read back from a stored row by the
existence-check queries: user_id for NMB, ref_id for CRDB. -/
def rowDedupKey (bankType : Bank) (r : StoredRow) : String :=
  match bankType with
  | Bank.NMB => r.user_id
  | Bank.CRDB => r.ref_id

/-- The chunk loop of checkExistingTransactions: the pending key list is
processed a hundred keys at a time; a chunk whose query is injected to fail
throws, otherwise the store keys found in the chunk are accumulated.  The
fuel argument only makes the recursion structural: every step drops at
least one pending key, so fuel equal to the number of pending keys never
runs out. -/
def chunkLoopAux (fails : Nat → Option String) (storeKeys : List String) :
    Nat → Nat → List String → Except String (List String)
  | _, _, [] => Except.ok []
  | 0, _, _ :: _ => Except.ok []
  | fuel + 1, idx, k :: ks =>
    match fails idx with
    | some e => Except.error e
    | none =>
      let chunk := (k :: ks).take 100
      let found := storeKeys.filter (fun s => chunk.contains s)
      match chunkLoopAux fails storeKeys fuel (idx + 1) ((k :: ks).drop 100) with
      | Except.ok rest => Except.ok (found ++ rest)
      | Except.error e => Except.error e

/-- The chunk loop started with enough fuel for its key list. -/
def chunkLoop (fails : Nat → Option String) (storeKeys : List String)
    (idx : Nat) (keys : List String) : Except String (List String) :=
  chunkLoopAux fails storeKeys keys.length idx keys

/-- The checkExistingTransactions function of src/unnamed/part_001: collect
the nonempty dedup keys of the given transactions, query the store for them
in chunks of a hundred, and return the set of keys found; a thrown chunk
error is caught and returned beside an empty set. -/
def checkExistingTransactions (env : DBEnv) (st : DBState)
    (transactions : List P3.ParsedTransaction) (bankType : Bank) :
    List String × Option String :=
  let keys := (transactions.map (dedupKey bankType)).filter (fun id => id != "")
  let storeKeys := st.transactions.map (rowDedupKey bankType)
  match chunkLoop env.checkChunkError storeKeys 0 keys with
  | Except.ok ids => (ids, none)
  | Except.error e => ([], some e)

/-- The row written for a surviving successful record: every column copied
from the record, is_valid forced to true and error_message to null. -/
def validRow (batchId : Nat) (t : P3.ParsedTransaction) : StoredRow :=
  { batch_id := batchId
  , ref_id := t.refId
  , user_id := t.userId
  , email_address := t.emailAddress
  , product_type := t.productType
  , product_name := t.productName
  , account_number := t.accountNumber
  , amount := t.amount
  , transaction_type := t.type
  , principal := t.principal
  , interest := t.interest
  , charges := t.charges
  , charge_name := t.chargeName
  , transaction_date := t.transactionDate
  , operation_type := t.operationType
  , transaction_mode := t.transactionMode
  , transaction_ref_no := t.transactionReferenceNumber
  , receipt_no := t.receiptNumber
  , cheque_no := t.chequeNumber
  , comment := t.comment
  , raw_line := t.rawLine
  , is_valid := true
  , error_message := none }

/-- The row written for a failed record: is_valid forced to false and
error_message copied through the JavaScript or-null idiom, which turns an
absent or empty message into null. -/
def failedRow (batchId : Nat) (t : P3.ParsedTransaction) : StoredRow :=
  { validRow batchId t with
    is_valid := false
  , error_message :=
      match t.errorMessage with
      | some m => if m != "" then some m else none
      | none => none }

/-- The duplicate filter of saveBatchToDatabase: successful records whose
dedup key is in the existing-id set are removed. -/
def transactionsToSave (existingIds : List String) (bankType : Bank)
    (successful : List P3.ParsedTransaction) : List P3.ParsedTransaction :=
  successful.filter (fun t => !(existingIds.contains (dedupKey bankType t)))

/-- The write set assembled by saveBatchToDatabase: the surviving
successful records followed by every failed record. -/
def allTransactions (batchId : Nat) (toSave failed : List P3.ParsedTransaction) :
    List StoredRow :=
  toSave.map (validRow batchId) ++ failed.map (failedRow batchId)

/-- The persistence-write loop of saveBatchToDatabase: rows are inserted a
hundred at a time; a chunk whose insert is injected to fail is logged and
skipped while the loop continues with the remaining chunks.  As above the
fuel argument only makes the recursion structural. -/
def insertChunksAux (fails : Nat → Option String) :
    Nat → Nat → List StoredRow → DBState → DBState
  | _, _, [], st => st
  | 0, _, _ :: _, st => st
  | fuel + 1, idx, r :: rs, st =>
    let chunk := (r :: rs).take 100
    let st1 :=
      match fails idx with
      | some _ => st
      | none => { st with transactions := st.transactions ++ chunk }
    insertChunksAux fails fuel (idx + 1) ((r :: rs).drop 100) st1

/-- The persistence-write loop started with enough fuel for its rows. -/
def insertChunks (fails : Nat → Option String) (idx : Nat)
    (rows : List StoredRow) (st : DBState) : DBState :=
  insertChunksAux fails rows.length idx rows st

/-- The rows that survive the persistence-write loop: chunks whose insert
fails contribute nothing, the others contribute their whole chunk in
order. -/
def keptChunksAux (fails : Nat → Option String) :
    Nat → Nat → List StoredRow → List StoredRow
  | _, _, [] => []
  | 0, _, _ :: _ => []
  | fuel + 1, idx, r :: rs =>
    (match fails idx with
     | some _ => []
     | none => (r :: rs).take 100) ++
    keptChunksAux fails fuel (idx + 1) ((r :: rs).drop 100)

/-- The surviving rows with enough fuel for the row list. -/
def keptChunks (fails : Nat → Option String) (idx : Nat)
    (rows : List StoredRow) : List StoredRow :=
  keptChunksAux fails rows.length idx rows

/-- The batch row inserted by saveBatchToDatabase: only the surviving
records are counted and summed, the failed-parse count is kept. -/
def mkBatchRow (env : DBEnv) (batchId : Nat) (result : P3.ParseResult)
    (batchName : Option String) (toSave : List P3.ParsedTransaction) : BatchRow :=
  { id := batchId
  , session_id := env.sessionId
  , batch_name := batchName.getD env.defaultBatchName
  , total_lines := result.totalLines
  , success_count := toSave.length
  , fail_count := result.failCount
  , total_amount := toSave.foldl (fun sum t => sum + parseAmountOrZero t.amount) 0 }

/-- The result triple of saveBatchToDatabase. -/
structure SaveResult where
  batchId : Option Nat
  error : Option String
  skippedCount : Nat
deriving DecidableEq

/-- The saveBatchToDatabase function of src/unnamed/part_001 as a function
from store state to store state beside its result: a failed existence
check aborts before anything is written; when every survivor is a duplicate
no batch is created; otherwise the batch row is inserted (aborting if that
insert fails) and the write set is persisted chunk by chunk with failing
chunks skipped. -/
def saveBatchToDatabase (env : DBEnv) (st : DBState) (result : P3.ParseResult)
    (batchName : Option String) : DBState × SaveResult :=
  let check := checkExistingTransactions env st result.successful result.bankType
  match check.2 with
  | some e => (st, { batchId := none, error := some e, skippedCount := 0 })
  | none =>
    let toSave := transactionsToSave check.1 result.bankType result.successful
    let skippedCount := result.successful.length - toSave.length
    if toSave.length == 0 then
      (st, { batchId := none, error := none, skippedCount := skippedCount })
    else
      match env.batchInsertError with
      | some e => (st, { batchId := none, error := some e, skippedCount := 0 })
      | none =>
        let batchId := st.nextBatchId
        let batchRow := mkBatchRow env batchId result batchName toSave
        let st1 : DBState :=
          { st with
            batches := st.batches ++ [batchRow]
          , nextBatchId := batchId + 1 }
        let rows := allTransactions batchId toSave result.failed
        let st2 := insertChunks env.txChunkError 0 rows st1
        (st2, { batchId := some batchId, error := none
              , skippedCount := skippedCount })

end DB

/-- Selection rule as worded by the specification, for comparison with the
code's nested conditionals: the second-to-last occurrence when three or
more are found, the last when exactly two, the single one when exactly one,
empty when none. -/
def specSelectedAmount (occurrences : List String) : String :=
  if occurrences.length ≥ 3 then occurrences.getD (occurrences.length - 2) ""
  else if occurrences.length == 2 then occurrences.getD (occurrences.length - 1) ""
  else if occurrences.length == 1 then occurrences.getD 0 ""
  else ""

namespace Fixtures

/-- Environment in which every network call succeeds. -/
def envOk : DB.DBEnv :=
  { sessionId := "session_1"
  , defaultBatchName := "Batch 1"
  , checkChunkError := fun _ => none
  , batchInsertError := none
  , txChunkError := fun _ => none }

/-- Environment in which every existence-check chunk query fails. -/
def envCheckFail : DB.DBEnv :=
  { envOk with checkChunkError := fun _ => some "network error" }

/-- Environment in which the first persistence-write chunk fails and
everything else succeeds. -/
def envWriteFail : DB.DBEnv :=
  { envOk with txChunkError := fun i => if i == 0 then some "insert failed" else none }

/-- An empty record store. -/
def stEmpty : DB.DBState :=
  { batches := [], transactions := [], nextBatchId := 0 }

/-- A concrete valid NMB record with a nonempty dedup key. -/
def tx1 : P3.ParsedTransaction :=
  { P3.createEmptyTransaction "line one" none with
    userId := "20710095898"
  , refId := "111111111"
  , amount := "5000"
  , transactionDate := "14 Jan 2026"
  , isValid := true }

/-- A concrete failed record carrying an error message. -/
def txBad : P3.ParsedTransaction :=
  P3.createEmptyTransaction "garbage line" (some "Could not extract required fields")

/-- A parse result with one valid and one failed record. -/
def resOne : P3.ParseResult :=
  { successful := [tx1], failed := [txBad], totalLines := 2
  , successCount := 1, failCount := 1, bankType := Bank.NMB }

/-- A parse result with only the valid record. -/
def resOnlyTx1 : P3.ParseResult :=
  { successful := [tx1], failed := [], totalLines := 1
  , successCount := 1, failCount := 0, bankType := Bank.NMB }

/-- A store that already holds the persisted row of the valid record. -/
def stWithTx1 : DB.DBState :=
  { batches := [], transactions := [DB.validRow 0 tx1], nextBatchId := 1 }

/-- A parse result, produced by the part_003 batch parser, whose single
successful record has an empty dedup key: the line carries a date but no
user id. -/
def resEmptyKey : P3.ParseResult :=
  P3.parseTransactions "20 Jan 2026" Bank.NMB

/-- A valid record for the resolver scenarios. -/
def tierTx : P3.ParsedTransaction :=
  { P3.createEmptyTransaction "tier line" none with
    userId := "U1", refId := "R1", isValid := true }

/-- A mapping that matches tierTx only through its account number. -/
def tierMapAcct : App.CustomerMapping :=
  { id := "a", member_id := "999", ref_id := none
  , customer_name := some "Acct Holder", email := none
  , account_number := some "U1", phone_number := none
  , loan_product := none, created_at := "" }

/-- A mapping that matches tierTx through its member id. -/
def tierMapMember : App.CustomerMapping :=
  { id := "b", member_id := "U1", ref_id := none
  , customer_name := some "Member Holder", email := none
  , account_number := none, phone_number := none
  , loan_product := none, created_at := "" }

/-- A mapping that matches nothing about tierTx. -/
def tierMapNone : App.CustomerMapping :=
  { id := "c", member_id := "777", ref_id := some "X9"
  , customer_name := some "Nobody", email := none
  , account_number := some "555", phone_number := none
  , loan_product := none, created_at := "" }

/-- The NMB sample line of the end-to-end scenario in the specification. -/
def nmbSampleLine : String :=
  "20  Jan 2026  20  Jan 2026    101 - NMB Head Office - Cash Deposit Agency banking - 2001 12 17 35 agency @22410063786@TPS900 Trx ID PS2085594242  Ter ID 2245105627   Description 963330000141!! From SAVCOM LIMITED COLLECTION ACC => VITUS VICENT ITABA  101AGD126020A4OE  12500.00    TZS 3826000.00"

end Fixtures

/-! ### Helper lemmas -/

/-- The code's nested amount-selection conditionals agree with the
specification's wording of the selection rule on every occurrence list. -/
theorem selectCRDBAmount_eq_spec (l : List String) :
    TP.selectCRDBAmount l = specSelectedAmount l := by
  match l with
  | [] => rfl
  | [a] => rfl
  | [a, b] => rfl
  | a :: b :: c :: t =>
    simp only [TP.selectCRDBAmount, specSelectedAmount, List.length_cons]
    rw [if_pos (by omega : t.length + 1 + 1 + 1 ≥ 2),
        if_pos (by omega : t.length + 1 + 1 + 1 ≥ 3),
        if_pos (by omega : t.length + 1 + 1 + 1 ≥ 3)]

/-- A record whose error message is the negative branch of a validity test
is either valid or carries the nonempty message. -/
theorem errOfIf (b : Bool) (msg : String) (h : msg ≠ "") :
    b = true ∨
    ∃ m, (if b then (none : Option String) else some msg) = some m ∧ m ≠ "" := by
  cases b
  · exact Or.inr ⟨msg, rfl, h⟩
  · exact Or.inl rfl

/-- A filter and its negation split the length of a list. -/
theorem length_filter_split (p : α → Bool) (l : List α) :
    (l.filter p).length + (l.filter (fun a => !p a)).length = l.length := by
  induction l with
  | nil => rfl
  | cons a t ih =>
    by_cases h : p a <;> simp [List.filter_cons, h, ← ih] <;> omega

/-- The partition loop of the batch parser appends, to each accumulator,
exactly the valid and the invalid per-line results in input order. -/
theorem tp_foldl_partition (bankType : Bank) (ms : List CMS.CustomerMapping) :
    ∀ (lines : List String)
      (acc : List TP.ParsedTransaction × List TP.ParsedTransaction),
      (∀ l ∈ lines, jsTrim l ≠ "") →
      lines.foldl (TP.parseStep bankType ms) acc =
        (acc.1 ++ (lines.map (TP.processLine bankType ms)).filter
            (fun p => p.isValid),
         acc.2 ++ (lines.map (TP.processLine bankType ms)).filter
            (fun p => !p.isValid)) := by
  intro lines
  induction lines with
  | nil => intro acc _; simp
  | cons l ls ih =>
    intro acc hbl
    have hl : jsTrim l ≠ "" := hbl l (by simp)
    have hstep : TP.parseStep bankType ms acc l =
        (if (TP.processLine bankType ms l).isValid
         then (acc.1 ++ [TP.processLine bankType ms l], acc.2)
         else (acc.1, acc.2 ++ [TP.processLine bankType ms l])) := by
      simp only [TP.parseStep]
      by_cases hv : (TP.processLine bankType ms l).isValid <;> simp [hv, hl]
    rw [List.foldl_cons, hstep]
    by_cases hv : (TP.processLine bankType ms l).isValid
    · rw [if_pos hv, ih _ (fun x hx => hbl x (by simp [hx]))]
      simp [List.filter_cons, hv]
    · rw [if_neg hv, ih _ (fun x hx => hbl x (by simp [hx]))]
      simp [List.filter_cons, hv]

/-- With no injected chunk failure the chunk loop returns a key set
containing every pending key that occurs among the store keys. -/
theorem chunkLoopAux_complete (fails : Nat → Option String)
    (storeKeys : List String) (h : ∀ i, fails i = none) :
    ∀ (fuel : Nat) (keys : List String), keys.length ≤ fuel → ∀ idx,
      ∃ ids, DB.chunkLoopAux fails storeKeys fuel idx keys = Except.ok ids ∧
        ∀ k ∈ keys, k ∈ storeKeys → k ∈ ids := by
  intro fuel
  induction fuel with
  | zero =>
    intro keys hk idx
    have hnil : keys = [] := List.length_eq_zero.mp (Nat.le_zero.mp hk)
    subst hnil
    exact ⟨[], rfl, by simp⟩
  | succ n ih =>
    intro keys hk idx
    match keys with
    | [] => exact ⟨[], rfl, by simp⟩
    | k :: ks =>
      have hlen : ((k :: ks).drop 100).length ≤ n := by
        simp only [List.length_drop, List.length_cons]
        simp only [List.length_cons] at hk
        omega
      obtain ⟨ids, heq, hmem⟩ := ih ((k :: ks).drop 100) hlen (idx + 1)
      refine ⟨storeKeys.filter (fun s => ((k :: ks).take 100).contains s) ++ ids,
        ?_, ?_⟩
      · simp only [DB.chunkLoopAux, h idx, heq]
      · intro x hx hsx
        have hx2 : x ∈ (k :: ks).take 100 ++ (k :: ks).drop 100 := by
          rw [List.take_append_drop]
          exact hx
        rcases List.mem_append.mp hx2 with hc | hd
        · exact List.mem_append_left _
            (List.mem_filter.mpr ⟨hsx, List.elem_eq_true_of_mem hc⟩)
        · exact List.mem_append_right _ (hmem x hd hsx)

/-- The persistence-write loop only appends the surviving chunks to the
transactions table, leaving the rest of the store untouched. -/
theorem insertChunksAux_eq (fails : Nat → Option String) :
    ∀ (fuel : Nat) (rows : List DB.StoredRow), rows.length ≤ fuel →
      ∀ (idx : Nat) (st : DB.DBState),
      DB.insertChunksAux fails fuel idx rows st =
        { st with transactions :=
            st.transactions ++ DB.keptChunksAux fails fuel idx rows } := by
  intro fuel
  induction fuel with
  | zero =>
    intro rows hr idx st
    have hnil : rows = [] := List.length_eq_zero.mp (Nat.le_zero.mp hr)
    subst hnil
    simp [DB.insertChunksAux, DB.keptChunksAux]
  | succ n ih =>
    intro rows hr idx st
    match rows with
    | [] => simp [DB.insertChunksAux, DB.keptChunksAux]
    | r :: rs =>
      have hlen : ((r :: rs).drop 100).length ≤ n := by
        simp only [List.length_drop, List.length_cons]
        simp only [List.length_cons] at hr
        omega
      simp only [DB.insertChunksAux, DB.keptChunksAux]
      cases hf : fails idx with
      | some e =>
        simp only [hf]
        rw [ih _ hlen]
        simp
      | none =>
        simp only [hf]
        rw [ih _ hlen]
        simp [List.append_assoc]

/-- The wrapper form of the previous lemma, as used by
saveBatchToDatabase. -/
theorem insertChunks_eq (fails : Nat → Option String) (idx : Nat)
    (rows : List DB.StoredRow) (st : DB.DBState) :
    DB.insertChunks fails idx rows st =
      { st with transactions := st.transactions ++ DB.keptChunks fails idx rows } :=
  insertChunksAux_eq fails rows.length rows le_rfl idx st

/-- With no injected insert failure every chunk survives. -/
theorem keptChunksAux_all (fails : Nat → Option String)
    (h : ∀ i, fails i = none) :
    ∀ (fuel : Nat) (rows : List DB.StoredRow), rows.length ≤ fuel → ∀ idx,
      DB.keptChunksAux fails fuel idx rows = rows := by
  intro fuel
  induction fuel with
  | zero =>
    intro rows hr idx
    have hnil : rows = [] := List.length_eq_zero.mp (Nat.le_zero.mp hr)
    subst hnil
    rfl
  | succ n ih =>
    intro rows hr idx
    match rows with
    | [] => rfl
    | r :: rs =>
      have hlen : ((r :: rs).drop 100).length ≤ n := by
        simp only [List.length_drop, List.length_cons]
        simp only [List.length_cons] at hr
        omega
      simp only [DB.keptChunksAux, h idx, ih _ hlen]
      exact List.take_append_drop 100 (r :: rs)

/-- When the existence check succeeds, at least one record survives the
duplicate filter, and the batch insert succeeds, saveBatchToDatabase
appends the batch row, appends the surviving write chunks, and reports the
created batch id with no error. -/
theorem saveBatch_ok (env : DB.DBEnv) (st : DB.DBState) (result : P3.ParseResult)
    (batchName : Option String)
    (h1 : (DB.checkExistingTransactions env st result.successful
            result.bankType).2 = none)
    (h2 : DB.transactionsToSave
            (DB.checkExistingTransactions env st result.successful
              result.bankType).1 result.bankType result.successful ≠ [])
    (h3 : env.batchInsertError = none) :
    DB.saveBatchToDatabase env st result batchName =
      ({ batches := st.batches ++
          [DB.mkBatchRow env st.nextBatchId result batchName
            (DB.transactionsToSave
              (DB.checkExistingTransactions env st result.successful
                result.bankType).1 result.bankType result.successful)]
       , transactions := st.transactions ++
          DB.keptChunks env.txChunkError 0
            (DB.allTransactions st.nextBatchId
              (DB.transactionsToSave
                (DB.checkExistingTransactions env st result.successful
                  result.bankType).1 result.bankType result.successful)
              result.failed)
       , nextBatchId := st.nextBatchId + 1 },
       { batchId := some st.nextBatchId, error := none
       , skippedCount := result.successful.length -
           (DB.transactionsToSave
             (DB.checkExistingTransactions env st result.successful
               result.bankType).1 result.bankType result.successful).length }) := by
  have h2b : ((DB.transactionsToSave
      (DB.checkExistingTransactions env st result.successful
        result.bankType).1 result.bankType result.successful).length == 0) =
      false := by
    simpa using fun hh => h2 (List.length_eq_zero.mp hh)
  simp only [DB.saveBatchToDatabase, h1, h2b, h3]
  rw [insertChunks_eq]
  simp

/-! ### Claim theorems -/

/-- C1: for every input line the CRDB extractor collects the matches of the
two-decimal amount regex in left-to-right order and selects the
second-to-last of three or more, the last of exactly two, the single one,
or the empty string; in particular lines whose occurrence lists are
[0.00, 12500.00, 3826000.00], [0.00, 12500.00] and [12500.00] all yield the
amount 12500.00. -/
theorem crdb_amount_selection :
    (∀ line : String,
      (TP.parseCRDBTransactionLine line).amount =
        specSelectedAmount (crdbAllAmounts (jsTrim line).toList)) ∧
    crdbAllAmounts ("x 0.00 12500.00 3826000.00").toList =
      ["0.00", "12500.00", "3826000.00"] ∧
    (TP.parseCRDBTransactionLine "x 0.00 12500.00 3826000.00").amount =
      "12500.00" ∧
    crdbAllAmounts ("x 0.00 12500.00").toList = ["0.00", "12500.00"] ∧
    (TP.parseCRDBTransactionLine "x 0.00 12500.00").amount = "12500.00" ∧
    crdbAllAmounts ("x 12500.00").toList = ["12500.00"] ∧
    (TP.parseCRDBTransactionLine "x 12500.00").amount = "12500.00" := by
  refine ⟨?_, by decide⟩
  intro line
  simp only [TP.parseCRDBTransactionLine, TP.parseCRDBTransactionLineWith]
  split
  · rename_i h
    rw [eq_of_beq h]
    rfl
  · exact selectCRDBAmount_eq_spec _

/-- C2 counterexample: a record whose user id matches the second mapping's
member id and the first mapping's account number is resolved to the FIRST
mapping, although the claim requires the member-id mapping to win; the two
overlays differ, so the enriched output is not the claimed one. -/
theorem resolver_ignores_tier_priority :
    App.mappingMatches Fixtures.tierTx Fixtures.tierMapMember = true ∧
    (Fixtures.tierMapMember.member_id == Fixtures.tierTx.userId) = true ∧
    (Fixtures.tierMapAcct.member_id == Fixtures.tierTx.userId) = false ∧
    (Fixtures.tierMapAcct.ref_id == some Fixtures.tierTx.refId) = false ∧
    (Fixtures.tierMapAcct.account_number == some Fixtures.tierTx.userId) = true ∧
    [Fixtures.tierMapAcct, Fixtures.tierMapMember].find?
        (App.mappingMatches Fixtures.tierTx) = some Fixtures.tierMapAcct ∧
    App.enrichTransactions [Fixtures.tierMapAcct, Fixtures.tierMapMember]
        [Fixtures.tierTx] =
      [App.applyMapping Fixtures.tierMapAcct Fixtures.tierTx] ∧
    App.applyMapping Fixtures.tierMapAcct Fixtures.tierTx ≠
      App.applyMapping Fixtures.tierMapMember Fixtures.tierTx := by
  decide

/-- C2 (amended): the resolver applies the first mapping in list order that
satisfies any of the three match criteria — member id against the user id,
reference id against the reference id, or account number against either —
with no tier priority across distinct mappings. -/
theorem resolver_first_match_in_list_order (t : P3.ParsedTransaction)
    (pre post : List App.CustomerMapping) (m : App.CustomerMapping)
    (hpre : ∀ mp ∈ pre, App.mappingMatches t mp = false)
    (hm : App.mappingMatches t m = true) :
    (pre ++ m :: post).find? (App.mappingMatches t) = some m ∧
    App.enrichTransactions (pre ++ m :: post) [t] = [App.applyMapping m t] := by
  have hfind : (pre ++ m :: post).find? (App.mappingMatches t) = some m := by
    induction pre with
    | nil => exact List.find?_cons_of_pos _ hm
    | cons p ps ih =>
      rw [List.cons_append,
        List.find?_cons_of_neg _ (by simp [hpre p (by simp)])]
      exact ih (fun mp hmp => hpre mp (by simp [hmp]))
  refine ⟨hfind, ?_⟩
  have hlen : (pre ++ m :: post).length > 0 := by simp
  simp [App.enrichTransactions, App.enrichOne, hfind, hlen]

/-- C2 witness: a list whose first mapping matches nothing and whose second
matches by member id resolves to the second mapping. -/
theorem resolver_first_match_in_list_order_witness :
    [Fixtures.tierMapNone, Fixtures.tierMapMember].find?
        (App.mappingMatches Fixtures.tierTx) = some Fixtures.tierMapMember ∧
    App.enrichTransactions [Fixtures.tierMapNone, Fixtures.tierMapMember]
        [Fixtures.tierTx] =
      [App.applyMapping Fixtures.tierMapMember Fixtures.tierTx] :=
  resolver_first_match_in_list_order Fixtures.tierTx [Fixtures.tierMapNone] []
    Fixtures.tierMapMember (by decide) (by decide)

/-- C3 counterexample: the CRDB line REF:abc123 yields a nonempty reference
id with empty amount and date, yet the record is invalid, so validity is
not equivalent to one of the three fields being nonempty. -/
theorem crdb_reference_only_line_invalid :
    (TP.parseCRDBTransactionLine "REF:abc123").invoiceNo = "abc123" ∧
    (TP.parseCRDBTransactionLine "REF:abc123").amount = "" ∧
    (TP.parseCRDBTransactionLine "REF:abc123").paymentDate = "" ∧
    (TP.parseCRDBTransactionLine "REF:abc123").isValid = false ∧
    ¬ ((TP.parseCRDBTransactionLine "REF:abc123").isValid = true ↔
       ((TP.parseCRDBTransactionLine "REF:abc123").invoiceNo ≠ "" ∨
        (TP.parseCRDBTransactionLine "REF:abc123").amount ≠ "" ∨
        (TP.parseCRDBTransactionLine "REF:abc123").paymentDate ≠ "")) := by
  decide

/-- C3 (amended): for the NMB extractor validity is equivalent to one of
reference id, amount or date being nonempty; for the CRDB extractor it is
equivalent to amount or date being nonempty (a nonempty reference id alone
does not make a CRDB record valid); for both extractors every invalid
record carries a nonempty error message. -/
theorem extractor_validity_invariant (line : String) :
    ((TP.parseTransactionLine line).isValid =
      ((TP.parseTransactionLine line).invoiceNo != "" ||
       (TP.parseTransactionLine line).amount != "" ||
       (TP.parseTransactionLine line).paymentDate != "")) ∧
    ((TP.parseCRDBTransactionLine line).isValid =
      ((TP.parseCRDBTransactionLine line).amount != "" ||
       (TP.parseCRDBTransactionLine line).paymentDate != "")) ∧
    ((TP.parseTransactionLine line).isValid = true ∨
      ∃ m, (TP.parseTransactionLine line).errorMessage = some m ∧ m ≠ "") ∧
    ((TP.parseCRDBTransactionLine line).isValid = true ∨
      ∃ m, (TP.parseCRDBTransactionLine line).errorMessage = some m ∧ m ≠ "") := by
  refine ⟨?_, ?_, ?_, ?_⟩
  · simp only [TP.parseTransactionLine, TP.parseTransactionLineWith]
    split
    · rfl
    · rfl
  · simp only [TP.parseCRDBTransactionLine, TP.parseCRDBTransactionLineWith]
    split
    · rfl
    · rfl
  · simp only [TP.parseTransactionLine, TP.parseTransactionLineWith]
    split
    · exact Or.inr ⟨"Empty line", rfl, by decide⟩
    · exact errOfIf _ _ (by decide)
  · simp only [TP.parseCRDBTransactionLine, TP.parseCRDBTransactionLineWith]
    split
    · exact Or.inr ⟨"Empty line", rfl, by decide⟩
    · exact errOfIf _ _ (by decide)

/-- C4: when any chunk of the dedup existence check fails,
saveBatchToDatabase returns the error with a null batch id and writes
nothing: the store is returned unchanged. -/
theorem dedup_check_failure_aborts (env : DB.DBEnv) (st : DB.DBState)
    (result : P3.ParseResult) (batchName : Option String) (e : String)
    (h : (DB.checkExistingTransactions env st result.successful
            result.bankType).2 = some e) :
    DB.saveBatchToDatabase env st result batchName =
      (st, { batchId := none, error := some e, skippedCount := 0 }) := by
  simp only [DB.saveBatchToDatabase, h]

/-- C4 witness: a failing chunk query on a one-record batch aborts with the
error, a null batch id and an unchanged empty store. -/
theorem dedup_check_failure_aborts_witness :
    DB.saveBatchToDatabase Fixtures.envCheckFail Fixtures.stEmpty
      Fixtures.resOnlyTx1 none =
      (Fixtures.stEmpty,
       { batchId := none, error := some "network error", skippedCount := 0 }) :=
  dedup_check_failure_aborts Fixtures.envCheckFail Fixtures.stEmpty
    Fixtures.resOnlyTx1 none "network error" (by decide)

/-- C5: when the existence check succeeds, at least one record survives the
duplicate filter and the batch insert succeeds, saveBatchToDatabase returns
the created batch id with a null error whatever chunk-insert failures are
injected, and the rows appended to the store are exactly the surviving
chunks: a failing chunk is skipped while every other chunk is still
written. -/
theorem write_chunk_failure_logged_and_skipped (env : DB.DBEnv)
    (st : DB.DBState) (result : P3.ParseResult) (batchName : Option String)
    (h1 : (DB.checkExistingTransactions env st result.successful
            result.bankType).2 = none)
    (h2 : DB.transactionsToSave
            (DB.checkExistingTransactions env st result.successful
              result.bankType).1 result.bankType result.successful ≠ [])
    (h3 : env.batchInsertError = none) :
    (DB.saveBatchToDatabase env st result batchName).2 =
      { batchId := some st.nextBatchId, error := none
      , skippedCount := result.successful.length -
          (DB.transactionsToSave
            (DB.checkExistingTransactions env st result.successful
              result.bankType).1 result.bankType result.successful).length } ∧
    (DB.saveBatchToDatabase env st result batchName).1.transactions =
      st.transactions ++
        DB.keptChunks env.txChunkError 0
          (DB.allTransactions st.nextBatchId
            (DB.transactionsToSave
              (DB.checkExistingTransactions env st result.successful
                result.bankType).1 result.bankType result.successful)
            result.failed) := by
  rw [saveBatch_ok env st result batchName h1 h2 h3]
  exact ⟨rfl, rfl⟩

/-- C5 witness: with the only write chunk injected to fail, the batch id is
still returned with a null error and the store receives no rows. -/
theorem write_chunk_failure_logged_and_skipped_witness :
    (DB.saveBatchToDatabase Fixtures.envWriteFail Fixtures.stEmpty
      Fixtures.resOne none).2 =
      { batchId := some 0, error := none, skippedCount := 0 } ∧
    (DB.saveBatchToDatabase Fixtures.envWriteFail Fixtures.stEmpty
      Fixtures.resOne none).1.transactions = [] :=
  write_chunk_failure_logged_and_skipped Fixtures.envWriteFail Fixtures.stEmpty
    Fixtures.resOne none (by decide) (by decide) (by decide)

/-- C6 counterexample: the line 20 Jan 2026 parses to a valid record whose
dedup key (user id) is empty; after a first submission persists it, every
successful record's key occurs among the stored keys, yet a second
submission of the same parse result creates batch 1, skips nothing and
inserts one more row, because empty keys are excluded from the existence
check. -/
theorem resubmission_with_empty_key_reinserts :
    (∀ t ∈ Fixtures.resEmptyKey.successful,
      DB.dedupKey Bank.NMB t ∈
        ((DB.saveBatchToDatabase Fixtures.envOk Fixtures.stEmpty
          Fixtures.resEmptyKey none).1.transactions.map
            (DB.rowDedupKey Bank.NMB))) ∧
    Fixtures.resEmptyKey.successCount = 1 ∧
    (DB.saveBatchToDatabase Fixtures.envOk
      (DB.saveBatchToDatabase Fixtures.envOk Fixtures.stEmpty
        Fixtures.resEmptyKey none).1 Fixtures.resEmptyKey none).2.batchId =
      some 1 ∧
    (DB.saveBatchToDatabase Fixtures.envOk
      (DB.saveBatchToDatabase Fixtures.envOk Fixtures.stEmpty
        Fixtures.resEmptyKey none).1 Fixtures.resEmptyKey none).2.skippedCount =
      0 ∧
    (DB.saveBatchToDatabase Fixtures.envOk
      (DB.saveBatchToDatabase Fixtures.envOk Fixtures.stEmpty
        Fixtures.resEmptyKey none).1 Fixtures.resEmptyKey
        none).1.transactions.length =
      (DB.saveBatchToDatabase Fixtures.envOk Fixtures.stEmpty
        Fixtures.resEmptyKey none).1.transactions.length + 1 := by
  decide

/-- C6 (amended): when the existence check succeeds and every successful
record's dedup key is nonempty and occurs among the stored keys,
saveBatchToDatabase inserts nothing, creates no batch, and returns a null
batch id and error with a skipped count equal to the number of successful
records. -/
theorem dedup_idempotent_for_nonempty_keys (env : DB.DBEnv) (st : DB.DBState)
    (result : P3.ParseResult) (batchName : Option String)
    (hchk : ∀ i, env.checkChunkError i = none)
    (hkeys : ∀ t ∈ result.successful, DB.dedupKey result.bankType t ≠ "" ∧
      DB.dedupKey result.bankType t ∈
        st.transactions.map (DB.rowDedupKey result.bankType)) :
    DB.saveBatchToDatabase env st result batchName =
      (st, { batchId := none, error := none
           , skippedCount := result.successful.length }) := by
  obtain ⟨ids, heq, hmem⟩ := chunkLoopAux_complete env.checkChunkError
    (st.transactions.map (DB.rowDedupKey result.bankType)) hchk
    ((result.successful.map (DB.dedupKey result.bankType)).filter
      (fun id => id != "")).length
    ((result.successful.map (DB.dedupKey result.bankType)).filter
      (fun id => id != "")) le_rfl 0
  have hcheck : DB.checkExistingTransactions env st result.successful
      result.bankType = (ids, none) := by
    simp only [DB.checkExistingTransactions, DB.chunkLoop]
    rw [heq]
  have hfilter : DB.transactionsToSave ids result.bankType
      result.successful = [] := by
    simp only [DB.transactionsToSave]
    apply List.filter_eq_nil_iff.mpr
    intro t ht
    obtain ⟨hne, hin⟩ := hkeys t ht
    have hkmem : DB.dedupKey result.bankType t ∈
        (result.successful.map (DB.dedupKey result.bankType)).filter
          (fun id => id != "") := by
      apply List.mem_filter.mpr
      exact ⟨List.mem_map_of_mem _ ht, by simpa using hne⟩
    have hidm : DB.dedupKey result.bankType t ∈ ids := hmem _ hkmem hin
    simpa using hidm
  simp only [DB.saveBatchToDatabase, hcheck, hfilter]
  simp

/-- C6 witness: a batch whose single record's nonempty key is already
stored is skipped whole, with no batch row and no error. -/
theorem dedup_idempotent_for_nonempty_keys_witness :
    DB.saveBatchToDatabase Fixtures.envOk Fixtures.stWithTx1
      Fixtures.resOnlyTx1 none =
      (Fixtures.stWithTx1,
       { batchId := none, error := none, skippedCount := 1 }) :=
  dedup_idempotent_for_nonempty_keys Fixtures.envOk Fixtures.stWithTx1
    Fixtures.resOnlyTx1 none (fun _ => rfl) (by decide)

/-- C7: the batch parser splits the raw input on newlines, discards lines
blank after trimming, maps the dispatched per-line extraction over the
remaining lines in order, and partitions the results by validity:
successful and failed are the valid and invalid results in input order,
the two counters are their lengths, and totalLines is their sum. -/
theorem batch_parser_partition (rawData : String) (bankType : Bank)
    (ms : List CMS.CustomerMapping) :
    (TP.parseTransactions rawData bankType ms).successful =
      ((splitLines rawData).map (TP.processLine bankType ms)).filter
        (fun p => p.isValid) ∧
    (TP.parseTransactions rawData bankType ms).failed =
      ((splitLines rawData).map (TP.processLine bankType ms)).filter
        (fun p => !p.isValid) ∧
    (TP.parseTransactions rawData bankType ms).totalLines =
      (splitLines rawData).length ∧
    (TP.parseTransactions rawData bankType ms).successCount =
      (TP.parseTransactions rawData bankType ms).successful.length ∧
    (TP.parseTransactions rawData bankType ms).failCount =
      (TP.parseTransactions rawData bankType ms).failed.length ∧
    (TP.parseTransactions rawData bankType ms).totalLines =
      (TP.parseTransactions rawData bankType ms).successCount +
      (TP.parseTransactions rawData bankType ms).failCount := by
  have hbl : ∀ l ∈ splitLines rawData, jsTrim l ≠ "" := by
    intro l hl
    have h2 := (List.mem_filter.mp hl).2
    simpa using h2
  have hfold := tp_foldl_partition bankType ms (splitLines rawData) ([], []) hbl
  have hs : (TP.parseTransactions rawData bankType ms).successful =
      ((splitLines rawData).map (TP.processLine bankType ms)).filter
        (fun p => p.isValid) := by
    simp only [TP.parseTransactions]
    rw [hfold]
    simp
  have hf : (TP.parseTransactions rawData bankType ms).failed =
      ((splitLines rawData).map (TP.processLine bankType ms)).filter
        (fun p => !p.isValid) := by
    simp only [TP.parseTransactions]
    rw [hfold]
    simp
  have hsc : (TP.parseTransactions rawData bankType ms).successCount =
      (TP.parseTransactions rawData bankType ms).successful.length := rfl
  have hfc : (TP.parseTransactions rawData bankType ms).failCount =
      (TP.parseTransactions rawData bankType ms).failed.length := rfl
  have htl : (TP.parseTransactions rawData bankType ms).totalLines =
      (splitLines rawData).length := rfl
  refine ⟨hs, hf, htl, hsc, hfc, ?_⟩
  rw [htl, hsc, hfc, hs, hf]
  rw [← List.length_map (splitLines rawData) (TP.processLine bankType ms)]
  exact (length_filter_split _ _).symm

/-- C8: an extraction fault injected into either line extractor on a
nonblank line is contained: the extractor still returns a record, invalid,
whose error message carries the fault message. -/
theorem extraction_fault_contained (fault : String) (line : String)
    (h : jsTrim line ≠ "") :
    (TP.parseTransactionLineWith (some fault) line).isValid = false ∧
    (TP.parseTransactionLineWith (some fault) line).errorMessage =
      some ("Parse error: " ++ fault) ∧
    (TP.parseCRDBTransactionLineWith (some fault) line).isValid = false ∧
    (TP.parseCRDBTransactionLineWith (some fault) line).errorMessage =
      some ("Parse error: " ++ fault) := by
  have hb : (jsTrim line == "") = false := by
    simpa using h
  simp [TP.parseTransactionLineWith, TP.parseCRDBTransactionLineWith,
        TP.createEmptyTransaction, hb]

/-- C8 witness: a fault with message boom on the line x yields, from both
extractors, an invalid record whose message is Parse error followed by
boom. -/
theorem extraction_fault_contained_witness :
    (TP.parseTransactionLineWith (some "boom") "x").isValid = false ∧
    (TP.parseTransactionLineWith (some "boom") "x").errorMessage =
      some "Parse error: boom" ∧
    (TP.parseCRDBTransactionLineWith (some "boom") "x").isValid = false ∧
    (TP.parseCRDBTransactionLineWith (some "boom") "x").errorMessage =
      some "Parse error: boom" :=
  extraction_fault_contained "boom" "x" (by decide)

/-- C9: the NMB sample line of the specification's end-to-end scenario
extracts reference id 963330000141, account and user id 22410063786,
amount 12500.00 and date 20 Jan 2026, in the part_003 record schema and in
the transactionParser.ts schema (where the user id is carried by the
reference memo). -/
theorem nmb_sample_line_fields :
    (P3.parseTransactionLine Fixtures.nmbSampleLine).refId = "963330000141" ∧
    (P3.parseTransactionLine Fixtures.nmbSampleLine).userId = "22410063786" ∧
    (P3.parseTransactionLine Fixtures.nmbSampleLine).amount = "12500.00" ∧
    (P3.parseTransactionLine Fixtures.nmbSampleLine).transactionDate =
      "20 Jan 2026" ∧
    (TP.parseTransactionLine Fixtures.nmbSampleLine).invoiceNo =
      "963330000141" ∧
    (TP.parseTransactionLine Fixtures.nmbSampleLine).referenceMemo =
      "22410063786" ∧
    (TP.parseTransactionLine Fixtures.nmbSampleLine).amount = "12500.00" ∧
    (TP.parseTransactionLine Fixtures.nmbSampleLine).paymentDate =
      "20 Jan 2026" := by
  decide

/-- C10: whenever a batch is created and no write chunk fails, every failed
record of the parse result is written to the store with is_valid false and
its nonempty error message preserved; the duplicate filter takes only the
successful list as input, so the assembled write set always contains the
row of every failed record. -/
theorem failed_records_written_with_batch (env : DB.DBEnv) (st : DB.DBState)
    (result : P3.ParseResult) (batchName : Option String)
    (h1 : (DB.checkExistingTransactions env st result.successful
            result.bankType).2 = none)
    (h2 : DB.transactionsToSave
            (DB.checkExistingTransactions env st result.successful
              result.bankType).1 result.bankType result.successful ≠ [])
    (h3 : env.batchInsertError = none)
    (h4 : ∀ i, env.txChunkError i = none) :
    ∀ t ∈ result.failed,
      DB.failedRow st.nextBatchId t ∈
        DB.allTransactions st.nextBatchId
          (DB.transactionsToSave
            (DB.checkExistingTransactions env st result.successful
              result.bankType).1 result.bankType result.successful)
          result.failed ∧
      DB.failedRow st.nextBatchId t ∈
        (DB.saveBatchToDatabase env st result batchName).1.transactions ∧
      (DB.failedRow st.nextBatchId t).is_valid = false ∧
      (∀ m, t.errorMessage = some m → m ≠ "" →
        (DB.failedRow st.nextBatchId t).error_message = some m) := by
  intro t ht
  have hrow : DB.failedRow st.nextBatchId t ∈
      DB.allTransactions st.nextBatchId
        (DB.transactionsToSave
          (DB.checkExistingTransactions env st result.successful
            result.bankType).1 result.bankType result.successful)
        result.failed :=
    List.mem_append_right _ (List.mem_map_of_mem _ ht)
  refine ⟨hrow, ?_, rfl, ?_⟩
  · rw [saveBatch_ok env st result batchName h1 h2 h3]
    have hkept : DB.keptChunks env.txChunkError 0
        (DB.allTransactions st.nextBatchId
          (DB.transactionsToSave
            (DB.checkExistingTransactions env st result.successful
              result.bankType).1 result.bankType result.successful)
          result.failed) =
        DB.allTransactions st.nextBatchId
          (DB.transactionsToSave
            (DB.checkExistingTransactions env st result.successful
              result.bankType).1 result.bankType result.successful)
          result.failed :=
      keptChunksAux_all env.txChunkError h4 _ _ le_rfl 0
    rw [hkept]
    exact List.mem_append_right _ hrow
  · intro m hm hne
    simp [DB.failedRow, hm, hne]

/-- C10 witness: with a healthy store the failed record of a two-record
batch is written with is_valid false and its message preserved. -/
theorem failed_records_written_with_batch_witness :
    DB.failedRow 0 Fixtures.txBad ∈
      (DB.saveBatchToDatabase Fixtures.envOk Fixtures.stEmpty
        Fixtures.resOne none).1.transactions ∧
    (DB.failedRow 0 Fixtures.txBad).is_valid = false ∧
    (DB.failedRow 0 Fixtures.txBad).error_message =
      some "Could not extract required fields" :=
  have h := failed_records_written_with_batch Fixtures.envOk Fixtures.stEmpty
    Fixtures.resOne none (by decide) (by decide) (by decide) (fun _ => rfl)
    Fixtures.txBad (by decide)
  ⟨h.2.1, h.2.2.1, h.2.2.2 _ rfl (by decide)⟩
